import Mathlib

/-!
Shallow embedding of the WatchTracker application (`src/app.js`).

The app delegates persistence to a document store (Firestore): each
collection is a finite map from document id (a string) to a document.
We model a collection as an association list `Docs α` with the store's
point operations:
  - `setKey` models `setDoc` (create-or-overwrite at a key),
  - `delKey` models `deleteDoc` (unconditional delete, no error when absent),
  - `getKey` / `hasKey` / `countKey` are the observations.
Collections carry no intrinsic order (ordering is only imposed by
queries), so representing an overwrite as delete-then-append is faithful.

`World` collects every per-user collection the app touches, mirroring the
paths of the source:
  artifacts/{appId}/public/users/{uid}               -> publicUsers
  artifacts/{appId}/users/{uid}/watchedList/{itemId} -> watchedList uid
  artifacts/{appId}/users/{uid}/wishlist/{itemId}    -> wishlist uid
  artifacts/{appId}/users/{uid}/friends/{fid}        -> friends uid
  artifacts/{appId}/users/{uid}/friendRequests/{sid} -> friendRequests uid
-/

namespace WatchTracker

/-- A document-store collection: documents keyed by string document id. -/
abbrev Docs (α : Type) := List (String × α)

/-- `setDoc`: create-or-overwrite the document at key `k`. -/
def setKey {α : Type} (m : Docs α) (k : String) (v : α) : Docs α :=
  m.filter (fun p => p.1 != k) ++ [(k, v)]

/-- `deleteDoc`: delete the document at key `k`; deleting an absent key is
not an error (the resulting map is simply unchanged). -/
def delKey {α : Type} (m : Docs α) (k : String) : Docs α :=
  m.filter (fun p => p.1 != k)

/-- Whether a document with key `k` exists. -/
def hasKey {α : Type} (m : Docs α) (k : String) : Bool :=
  m.any (fun p => p.1 == k)

/-- Read the document at key `k`. -/
def getKey {α : Type} (m : Docs α) (k : String) : Option α :=
  (m.find? (fun p => p.1 == k)).map Prod.snd

/-- How many documents carry key `k` (a well-formed store has 0 or 1). -/
def countKey {α : Type} (m : Docs α) (k : String) : Nat :=
  (m.filter (fun p => p.1 == k)).length

/-- A media document as written by `addToList` (`src/app.js` lines 262-269):
fields `title`, `poster_path`, `media_type`, `release_date`, `runtime`,
`addedAt`.  `addedAt` is the server timestamp in seconds (`None` when the
field is missing, matching the `b.addedAt?.seconds` guard at line 175). -/
structure MediaDoc where
  title : Option String
  poster_path : Option String
  media_type : String
  release_date : Option String
  runtime : Nat
  addedAt : Option Nat
deriving DecidableEq, Repr

/-- A public profile document as written by `handleSignup` (lines 208-211). -/
structure ProfileDoc where
  displayName : String
  displayName_lower : String
deriving DecidableEq, Repr

/-- A friends-collection document (lines 318-320): the counterpart's
display name, denormalized. -/
structure FriendDoc where
  displayName : String
deriving DecidableEq, Repr

/-- A friendRequests-collection document (lines 308-311). -/
structure ReqDoc where
  displayName : String
  addedAt : Option Nat
deriving DecidableEq, Repr

/-- The document store state: every collection the app reads or writes. -/
structure World where
  publicUsers : Docs ProfileDoc
  watchedList : String → Docs MediaDoc
  wishlist : String → Docs MediaDoc
  friends : String → Docs FriendDoc
  friendRequests : String → Docs ReqDoc

/-- The store with no documents at all. -/
def emptyWorld : World :=
  { publicUsers := []
    watchedList := fun _ => []
    wishlist := fun _ => []
    friends := fun _ => []
    friendRequests := fun _ => [] }

/-! ### External auth provider

The auth provider (Firebase Auth) is an external collaborator of the
repository; spec section 6 fixes its interface: email+password
registration and sign-in.  Modelled from the spec: registration creates an
account with a fresh opaque id and fails when the email is taken; sign-in
returns the id of the account matching both email and password. -/

/-- One provider-side account record. -/
structure AuthAccount where
  email : String
  password : String
  uid : String
deriving DecidableEq, Repr

/-- Auth provider state: registered accounts plus a fresh-id counter. -/
structure AuthState where
  accounts : List AuthAccount
  nextUid : Nat
deriving DecidableEq, Repr

/-- Modelled from the spec: external auth provider registration
(`createUserWithEmailAndPassword`): fails if the email is registered,
otherwise creates an account under a fresh uid and returns it. -/
def createUserWithEmailAndPassword (a : AuthState) (email password : String) :
    Except String (String × AuthState) :=
  if a.accounts.any (fun acc => acc.email == email) then
    Except.error "auth/email-already-in-use"
  else
    let uid := "uid-" ++ toString a.nextUid
    Except.ok (uid, ⟨a.accounts ++ [⟨email, password, uid⟩], a.nextUid + 1⟩)

/-- Modelled from the spec: external auth provider sign-in
(`signInWithEmailAndPassword`): returns the account id when email and
password match a registered account. -/
def signInWithEmailAndPassword (a : AuthState) (email password : String) :
    Except String String :=
  match a.accounts.find? (fun acc => acc.email == email && acc.password == password) with
  | some acc => Except.ok acc.uid
  | none => Except.error "auth/invalid-credential"

/-! ### Identity directory: `handleSignup` / `handleLogin` (lines 189-231) -/

/-- The error thrown by the Firebase modular SDK when `getDoc` is handed
a Query: `getDoc` accepts only a `DocumentReference` and throws a
`FirestoreError` on anything else.  The source imports `getDoc` but never
`getDocs`, and passes a Query to it at lines 170, 201 and 300.  One fixed
string stands for the SDK's message; only the fact that the call throws
(rather than executing the query) matters below. -/
def getDocQueryError : String :=
  "FirestoreError: Expected a DocumentReference, but it was a Query"

/-- The observable outcome of one `handleSignup` call: the result delivered
to the UI (error message or new account id), the auth provider state, the
store state, and how many uniqueness pre-check queries were issued. -/
structure SignupOutcome where
  result : Except String String
  auth : AuthState
  world : World
  precheckQueries : Nat

/-- The uniqueness pre-check at lines 199-201: the code builds the Query
on `public/users` filtered by `displayName_lower == displayName.toLowerCase()`
but awaits `getDoc(q)`, and `getDoc` throws on a Query, so the pre-check
never returns the matching profiles — it always throws.  (Were a snapshot
returned, line 202 would read `.empty`, a QuerySnapshot-only property.) -/
def namePrecheck (w : World) (displayName : String) :
    Except String (Docs ProfileDoc) :=
  Except.error getDocQueryError

/-- `handleSignup` (lines 189-218): rejects display names shorter than 3
characters before touching auth or store; otherwise it runs the
uniqueness pre-check inside the `try` of line 197 — whose `getDoc(q)`
throws, is caught at line 213 and surfaced as the error, leaving auth and
store untouched.  The remaining branches mirror lines 202-211 (conflict
on a pre-check hit, then provider account creation and the profile
write), reachable only if the pre-check returned. -/
def handleSignup (auth : AuthState) (w : World) (email password displayName : String) :
    SignupOutcome :=
  if displayName.length < 3 then
    ⟨Except.error "Display name must be at least 3 characters.", auth, w, 0⟩
  else
    match namePrecheck w displayName with
    | Except.error e => ⟨Except.error e, auth, w, 1⟩
    | Except.ok nameCheck =>
        if !nameCheck.isEmpty then
          ⟨Except.error "Display name is already taken.", auth, w, 1⟩
        else
          match createUserWithEmailAndPassword auth email password with
          | Except.error e => ⟨Except.error e, auth, w, 1⟩
          | Except.ok (uid, auth2) =>
              ⟨Except.ok uid, auth2,
                { w with publicUsers :=
                    setKey w.publicUsers uid ⟨displayName, displayName.toLower⟩ },
                1⟩

/-- `handleLogin` (lines 220-231): delegates entirely to the provider. -/
def handleLogin (auth : AuthState) (email password : String) : Except String String :=
  signInWithEmailAndPassword auth email password

/-! ### List store: `addToList` / `removeFromList` (lines 253-279) -/

/-- A catalog search result as consumed by `addToList` (TMDb item). -/
structure CatalogItem where
  id : Nat
  media_type : String
  title : Option String
  name : Option String
  poster_path : Option String
  release_date : Option String
  first_air_date : Option String
deriving DecidableEq, Repr

/-- The detail-lookup payload used to resolve the runtime (line 260). -/
structure DetailData where
  runtime : Option Nat
  episode_run_time : Option (List Nat)
deriving DecidableEq, Repr

/-- JavaScript `a || b` on optional strings: the empty string is falsy. -/
def jsOrStr (a b : Option String) : Option String :=
  match a with
  | some s => if s = "" then b else some s
  | none => b

/-- Line 260: `detailData.runtime || (detailData.episode_run_time ?
detailData.episode_run_time[0] : 0) || 0`, with JavaScript falsiness
(missing field or 0 falls through to the next alternative). -/
def resolveRuntime (d : DetailData) : Nat :=
  let fallback : Nat :=
    match d.episode_run_time with
    | some l => l.headD 0
    | none => 0
  match d.runtime with
  | some r => if r = 0 then fallback else r
  | none => fallback

/-- The document written by `addToList` (lines 262-269); `now` is the
server-assigned timestamp. -/
def mediaDocOf (item : CatalogItem) (d : DetailData) (now : Nat) : MediaDoc :=
  { title := jsOrStr item.title item.name
    poster_path := item.poster_path
    media_type := item.media_type
    release_date := jsOrStr item.release_date item.first_air_date
    runtime := resolveRuntime d
    addedAt := some now }

/-- The list selected by a `listType` string, mirroring the ternary at
lines 255 and 277. -/
def listOf (w : World) (listType userId : String) : Docs MediaDoc :=
  if listType = "watched" then w.watchedList userId else w.wishlist userId

/-- `addToList` (lines 253-273): performs the catalog detail lookup; if it
fails the whole add fails (the catch only surfaces an error message, no
write happens); on success writes the media document with `setDoc` at
document id `String(item.id)` — the stringified numeric catalog id. -/
def addToList (w : World) (userId : String) (item : CatalogItem) (listType : String)
    (detail : Except String DetailData) (now : Nat) : World :=
  match detail with
  | Except.error _ => w
  | Except.ok d =>
      if listType = "watched" then
        let l := setKey (w.watchedList userId) (toString item.id) (mediaDocOf item d now)
        { w with watchedList := Function.update w.watchedList userId l }
      else
        let l := setKey (w.wishlist userId) (toString item.id) (mediaDocOf item d now)
        { w with wishlist := Function.update w.wishlist userId l }

/-- `removeFromList` (lines 275-279): an unconditional `deleteDoc` at
document id `String(itemId)` (the itemId is already the string document
id of the list entry). -/
def removeFromList (w : World) (userId itemId listType : String) : World :=
  if listType = "watched" then
    let l := delKey (w.watchedList userId) itemId
    { w with watchedList := Function.update w.watchedList userId l }
  else
    let l := delKey (w.wishlist userId) itemId
    { w with wishlist := Function.update w.wishlist userId l }

/-! ### Social graph: `sendFriendRequest` / `handleFriendRequest` (lines 306-327) -/

/-- `sendFriendRequest` (lines 306-312): upserts a request document keyed
by the sender's uid in the target's `friendRequests` collection. -/
def sendFriendRequest (w : World) (senderId senderName targetId : String) (now : Nat) :
    World :=
  let l := setKey (w.friendRequests targetId) senderId ⟨senderName, some now⟩
  { w with friendRequests := Function.update w.friendRequests targetId l }

/-- The request object handed to `handleFriendRequest` by the UI: its
document id (= the sender's uid) and the sender's display name. -/
structure ReqRef where
  id : String
  displayName : String
deriving DecidableEq, Repr

/-- The three mutations of the accept batch (lines 316-322), applied
together: edge in the accepter's `friends`, reciprocal edge in the
sender's `friends`, delete of the request document. -/
def acceptBatch (w : World) (userId myName : String) (req : ReqRef) : World :=
  let e1 := setKey (w.friends userId) req.id ⟨req.displayName⟩
  let w1 := { w with friends := Function.update w.friends userId e1 }
  let e2 := setKey (w1.friends req.id) userId ⟨myName⟩
  let w2 := { w1 with friends := Function.update w1.friends req.id e2 }
  let r3 := delKey (w2.friendRequests userId) req.id
  { w2 with friendRequests := Function.update w2.friendRequests userId r3 }

/-- `handleFriendRequest` (lines 314-327).  On `accept`, the three
mutations form one `writeBatch` whose commit is all-or-nothing: `commitOk`
says whether the commit (a single network operation) succeeded; on
failure nothing is persisted.  On any other action (decline), a single
`deleteDoc` of the request, likewise all-or-nothing. -/
def handleFriendRequest (w : World) (userId myName : String) (req : ReqRef)
    (action : String) (commitOk : Bool) : World :=
  if action = "accept" then
    if commitOk then acceptBatch w userId myName req else w
  else
    if commitOk then
      let l := delKey (w.friendRequests userId) req.id
      { w with friendRequests := Function.update w.friendRequests userId l }
    else w

/-! ### Feed aggregation: the friends-feed loader (lines 158-180) -/

/-- A friend, as held in the `friends` subscription state (doc id plus
denormalized display name). -/
structure Friend where
  id : String
  displayName : String
deriving DecidableEq, Repr

/-- One item of the aggregated feed (line 172): the media document's
fields spread together with the document id and the source friend. -/
structure FeedItem where
  id : String
  doc : MediaDoc
  user : Friend
deriving DecidableEq, Repr

/-- The sort key of the comparator at line 175:
`(x.addedAt?.seconds || 0)` — a missing timestamp counts as 0. -/
def feedKey (x : FeedItem) : Nat :=
  x.doc.addedAt.getD 0

/-- The order imposed by the descending comparator at line 175:
`a` precedes `b` when `b`'s key is at most `a`'s. -/
def feedGe (a b : FeedItem) : Prop :=
  feedKey b ≤ feedKey a

instance : DecidableRel feedGe := fun a b => Nat.decLe (feedKey b) (feedKey a)

instance : IsTotal FeedItem feedGe :=
  ⟨fun a b => Nat.le_total (feedKey b) (feedKey a)⟩

instance : IsTrans FeedItem feedGe :=
  ⟨fun _ _ _ h1 h2 => Nat.le_trans h2 h1⟩

/-- The client-side sort at line 175: a stable sort of the concatenated
feed by `addedAt` descending, missing timestamps counting as 0. -/
def sortFeed (l : List FeedItem) : List FeedItem :=
  List.insertionSort feedGe l

/-- The per-friend fetch at lines 169-170: the code builds the Query
`query(collection(db, friendWatchedPath), orderBy('addedAt','desc'),
limit(5))` but then awaits `getDoc(q)`.  `getDoc` throws on a Query, so
the fetch never yields documents — it always rejects. -/
def friendTop5 (w : World) (fid : String) :
    Except String (List (String × MediaDoc)) :=
  Except.error getDocQueryError

/-- Line 172: tag a fetched document with its id and source friend. -/
def mkFeedItem (f : Friend) (p : String × MediaDoc) : FeedItem :=
  ⟨p.1, p.2, f⟩

/-- The loop of `fetchFeeds` (lines 167-174): iterate the friends in
order, awaiting each per-friend fetch and pushing its tagged documents;
a rejected await aborts the whole async function with that error (there
is no catch around it). -/
def fetchFeedsLoop (w : World) (friendsArr : List Friend) (acc : List FeedItem) :
    Except String (List FeedItem) :=
  match friendsArr with
  | [] => Except.ok acc
  | f :: rest =>
      match friendTop5 w f.id with
      | Except.error e => Except.error e
      | Except.ok docs => fetchFeedsLoop w rest (acc ++ docs.map (mkFeedItem f))

/-- The body of `fetchFeeds` (lines 165-178): run the per-friend loop; on
completion the concatenation would be sorted with the descending
comparator and published (line 175-176); a rejection propagates out of
the async function unhandled. -/
def fetchFeeds (friendsArr : List Friend) (w : World) :
    Except String (List FeedItem) :=
  (fetchFeedsLoop w friendsArr []).map sortFeed

/-- The whole feed-loader effect (lines 159-180): with an empty friend
array the feed state is set to `[]` and `fetchFeeds` is never invoked
(zero `getDoc` calls against any per-friend source).  Otherwise
`fetchFeeds` runs and its first awaited `getDoc(q)` throws: the rejection
is unhandled, `setFriendsFeed` (line 176) is never reached, and the feed
state keeps its previous value — which is `[]` in every reachable
execution, since the state is initialised and cleared to `[]` and the
only other write to it is the unreachable publish.  The second component
counts `getDoc` calls made against per-friend data: none for the empty
branch, exactly one (the throwing one) otherwise. -/
def feedRefresh (friendsArr : List Friend) (w : World) : List FeedItem × Nat :=
  if friendsArr.length = 0 then ([], 0)
  else
    match fetchFeeds friendsArr w with
    | Except.ok feed => (feed, friendsArr.length)
    | Except.error _ => ([], 1)

/-! ### Basic lemmas about the store primitives -/

theorem delKey_delKey {α : Type} (m : Docs α) (k : String) :
    delKey (delKey m k) k = delKey m k := by
  simp [delKey, List.filter_filter]

theorem delKey_setKey {α : Type} (m : Docs α) (k : String) (v : α) :
    delKey (setKey m k v) k = delKey m k := by
  simp [delKey, setKey, List.filter_append, List.filter_filter]

theorem hasKey_setKey_self {α : Type} (m : Docs α) (k : String) (v : α) :
    hasKey (setKey m k v) k = true := by
  simp [hasKey, setKey, List.any_append]

theorem hasKey_delKey_self {α : Type} (m : Docs α) (k : String) :
    hasKey (delKey m k) k = false := by
  simp [hasKey, delKey, List.any_eq_true, List.mem_filter]

theorem delKey_of_not_hasKey {α : Type} (m : Docs α) (k : String)
    (h : hasKey m k = false) : delKey m k = m := by
  rw [delKey, List.filter_eq_self]
  intro p hp
  by_contra hne
  simp only [bne_iff_ne, ne_eq, not_not] at hne
  have htrue : hasKey m k = true := by
    simp only [hasKey, List.any_eq_true]
    exact ⟨p, hp, by simp [hne]⟩
  simp [htrue] at h

theorem getKey_setKey_self {α : Type} (m : Docs α) (k : String) (v : α) :
    getKey (setKey m k v) k = some v := by
  rw [getKey, setKey, List.find?_append]
  have h1 : (m.filter (fun p => p.1 != k)).find? (fun p => p.1 == k) = none := by
    rw [List.find?_eq_none]
    intro p hp
    simp only [List.mem_filter, bne_iff_ne, ne_eq] at hp
    simpa using hp.2
  simp [h1]

theorem getKey_cons {α : Type} (p : String × α) (t : Docs α) (k2 : String) :
    getKey (p :: t) k2 = if p.1 = k2 then some p.2 else getKey t k2 := by
  by_cases hq : p.1 = k2 <;> simp [getKey, List.find?_cons, hq]

theorem getKey_delKey_ne {α : Type} (m : Docs α) (k k2 : String) (h : k2 ≠ k) :
    getKey (delKey m k) k2 = getKey m k2 := by
  induction m with
  | nil => rfl
  | cons p t ih =>
    rw [delKey, List.filter_cons]
    by_cases hp : p.1 = k
    · have hb : (p.1 != k) = false := by simp [hp]
      rw [hb]
      have hnotk2 : ¬ p.1 = k2 := by
        rw [hp]; exact fun e => h e.symm
      simp only [Bool.false_eq_true, if_false]
      calc getKey (List.filter (fun p => p.1 != k) t) k2
          = getKey (delKey t k) k2 := rfl
        _ = getKey t k2 := ih
        _ = getKey (p :: t) k2 := by rw [getKey_cons, if_neg hnotk2]
    · have hb : (p.1 != k) = true := by simp [hp]
      rw [hb, if_pos rfl]
      rw [getKey_cons, getKey_cons]
      by_cases hq : p.1 = k2
      · simp [hq]
      · rw [if_neg hq, if_neg hq]
        exact ih

theorem getKey_setKey_ne {α : Type} (m : Docs α) (k k2 : String) (v : α) (h : k2 ≠ k) :
    getKey (setKey m k v) k2 = getKey m k2 := by
  have h2 : List.find? (fun p => p.1 == k2) [(k, v)] = none := by
    have : ¬ ((k, v).1 = k2) := fun e => h e.symm
    simp [List.find?_cons, this]
  rw [getKey, setKey, List.find?_append, h2]
  have h3 : Option.map Prod.snd ((delKey m k).find? (fun p => p.1 == k2))
      = getKey m k2 := getKey_delKey_ne m k k2 h
  simpa [getKey, delKey] using h3

theorem countKey_setKey_self {α : Type} (m : Docs α) (k : String) (v : α) :
    countKey (setKey m k v) k = 1 := by
  rw [countKey, setKey, List.filter_append]
  have h1 : (m.filter (fun p => p.1 != k)).filter (fun p => p.1 == k) = [] := by
    rw [List.filter_eq_nil_iff]
    intro p hp
    simp only [List.mem_filter, bne_iff_ne, ne_eq] at hp
    simpa using hp.2
  simp [h1]

theorem length_setKey {α : Type} (m : Docs α) (k : String) (v : α) :
    (setKey m k v).length = (delKey m k).length + 1 := by
  simp [setKey, delKey]

/-! ### Claim theorems -/

/-- C3: with an empty friend set the published feed is the empty sequence
and zero per-friend watched-list queries are issued. -/
theorem empty_friends_feed_empty_no_fetch (w : World) :
    feedRefresh [] w = ([], 0) := rfl

/-- C5: for every display name shorter than 3 characters and all
email/password inputs, signup fails with the validation error and performs
no writes: the auth provider state and the store are unchanged, and no
uniqueness pre-check query is issued. -/
theorem short_displayName_signup_rejected (auth : AuthState) (w : World)
    (email password displayName : String) (h : displayName.length < 3) :
    handleSignup auth w email password displayName =
      ⟨Except.error "Display name must be at least 3 characters.", auth, w, 0⟩ := by
  simp [handleSignup, h]

/-- C5 witness: the concrete two-character display name "ab". -/
theorem short_displayName_signup_rejected_witness :
    ("ab".length < 3) ∧
      handleSignup ⟨[], 0⟩ emptyWorld "a@b.c" "hunter2" "ab" =
        ⟨Except.error "Display name must be at least 3 characters.", ⟨[], 0⟩, emptyWorld, 0⟩ :=
  ⟨by decide,
    short_displayName_signup_rejected ⟨[], 0⟩ emptyWorld "a@b.c" "hunter2" "ab" (by decide)⟩

/-- C9: `removeFromList` deletes unconditionally and is idempotent: when
the entry is absent the call leaves the whole store unchanged (and, being
a total function, raises no error), and removing twice equals removing
once. -/
theorem removeFromList_noop_and_idempotent (w : World) (userId itemId listType : String) :
    (hasKey (listOf w listType userId) itemId = false →
      removeFromList w userId itemId listType = w) ∧
    removeFromList (removeFromList w userId itemId listType) userId itemId listType
      = removeFromList w userId itemId listType := by
  constructor
  · intro h
    by_cases ht : listType = "watched"
    · have hl : delKey (w.watchedList userId) itemId = w.watchedList userId :=
        delKey_of_not_hasKey _ _ (by simpa [listOf, ht] using h)
      simp [removeFromList, ht, hl, Function.update_eq_self]
    · have hl : delKey (w.wishlist userId) itemId = w.wishlist userId :=
        delKey_of_not_hasKey _ _ (by simpa [listOf, ht] using h)
      simp [removeFromList, ht, hl, Function.update_eq_self]
  · by_cases ht : listType = "watched"
    · simp [removeFromList, ht, Function.update_same, Function.update_idem, delKey_delKey]
    · simp [removeFromList, ht, Function.update_same, Function.update_idem, delKey_delKey]

/-- C9 witness: removing an absent entry from an empty store, twice. -/
theorem removeFromList_noop_and_idempotent_witness :
    (removeFromList emptyWorld "u1" "42" "watched" = emptyWorld) ∧
    removeFromList (removeFromList emptyWorld "u1" "42" "watched") "u1" "42" "watched"
      = removeFromList emptyWorld "u1" "42" "watched" :=
  ⟨(removeFromList_noop_and_idempotent emptyWorld "u1" "42" "watched").1 (by decide),
    (removeFromList_noop_and_idempotent emptyWorld "u1" "42" "watched").2⟩

/-- Overwrite behaviour of two `setDoc` calls at the same key: the second
leaves the collection size unchanged, the key occurs exactly once, and the
stored document is the second one. -/
theorem setKey_twice_spec {α : Type} (m : Docs α) (k : String) (v1 v2 : α) :
    (setKey (setKey m k v1) k v2).length = (setKey m k v1).length ∧
    countKey (setKey (setKey m k v1) k v2) k = 1 ∧
    getKey (setKey (setKey m k v1) k v2) k = some v2 := by
  refine ⟨?_, countKey_setKey_self _ _ _, getKey_setKey_self _ _ _⟩
  rw [length_setKey, length_setKey, delKey_setKey]

/-- C7: adding the same catalog item id twice to the same (account,
listKind) list overwrites: the second call leaves the list length
unchanged, the id occurs exactly once, and the stored document (including
its `addedAt`) is the one of the second call. -/
theorem addToList_same_id_overwrites (w : World) (userId listType : String)
    (i1 i2 : CatalogItem) (d1 d2 : DetailData) (t1 t2 : Nat) (hid : i1.id = i2.id) :
    (listOf (addToList (addToList w userId i1 listType (Except.ok d1) t1)
        userId i2 listType (Except.ok d2) t2) listType userId).length
      = (listOf (addToList w userId i1 listType (Except.ok d1) t1) listType userId).length ∧
    countKey (listOf (addToList (addToList w userId i1 listType (Except.ok d1) t1)
        userId i2 listType (Except.ok d2) t2) listType userId) (toString i2.id) = 1 ∧
    getKey (listOf (addToList (addToList w userId i1 listType (Except.ok d1) t1)
        userId i2 listType (Except.ok d2) t2) listType userId) (toString i2.id)
      = some (mediaDocOf i2 d2 t2) ∧
    (mediaDocOf i2 d2 t2).addedAt = some t2 := by
  have hk : toString i1.id = toString i2.id := by rw [hid]
  by_cases ht : listType = "watched"
  · simp only [addToList, listOf, ht, if_true, Function.update_same, hk, if_pos]
    exact ⟨(setKey_twice_spec _ _ _ _).1, (setKey_twice_spec _ _ _ _).2.1,
      (setKey_twice_spec _ _ _ _).2.2, rfl⟩
  · simp only [addToList, listOf, ht, if_false, Function.update_same, hk, if_neg,
      not_false_iff]
    exact ⟨(setKey_twice_spec _ _ _ _).1, (setKey_twice_spec _ _ _ _).2.1,
      (setKey_twice_spec _ _ _ _).2.2, rfl⟩

/-- C7 witness: adding catalog item 42 twice to the watched list. -/
theorem addToList_same_id_overwrites_witness :
    (listOf (addToList (addToList emptyWorld "u1"
        ⟨42, "movie", some "T", none, none, some "2001-01-01", none⟩ "watched"
        (Except.ok ⟨some 100, none⟩) 1) "u1"
        ⟨42, "movie", some "T", none, none, some "2001-01-01", none⟩ "watched"
        (Except.ok ⟨some 100, none⟩) 2) "watched" "u1").length
      = (listOf (addToList emptyWorld "u1"
        ⟨42, "movie", some "T", none, none, some "2001-01-01", none⟩ "watched"
        (Except.ok ⟨some 100, none⟩) 1) "watched" "u1").length ∧
    countKey (listOf (addToList (addToList emptyWorld "u1"
        ⟨42, "movie", some "T", none, none, some "2001-01-01", none⟩ "watched"
        (Except.ok ⟨some 100, none⟩) 1) "u1"
        ⟨42, "movie", some "T", none, none, some "2001-01-01", none⟩ "watched"
        (Except.ok ⟨some 100, none⟩) 2) "watched" "u1") (toString 42) = 1 :=
  ⟨(addToList_same_id_overwrites emptyWorld "u1" "watched"
      ⟨42, "movie", some "T", none, none, some "2001-01-01", none⟩
      ⟨42, "movie", some "T", none, none, some "2001-01-01", none⟩
      ⟨some 100, none⟩ ⟨some 100, none⟩ 1 2 rfl).1,
    (addToList_same_id_overwrites emptyWorld "u1" "watched"
      ⟨42, "movie", some "T", none, none, some "2001-01-01", none⟩
      ⟨42, "movie", some "T", none, none, some "2001-01-01", none⟩
      ⟨some 100, none⟩ ⟨some 100, none⟩ 1 2 rfl).2.1⟩

/-- C10: the `setDoc` key of `addToList` is `String(item.id)` alone (no
media kind), so adding a series whose numeric id equals that of a movie
already in the same list overwrites the movie's entry: afterwards the id
occurs once, the stored document is the series one (the later add), and
the list is no longer than before the series add. -/
theorem addToList_key_ignores_media_kind (w : World) (userId listType : String)
    (movie series : CatalogItem) (d1 d2 : DetailData) (t1 t2 : Nat)
    (hm : movie.media_type = "movie") (hs : series.media_type = "tv")
    (hid : movie.id = series.id) :
    (listOf (addToList (addToList w userId movie listType (Except.ok d1) t1)
        userId series listType (Except.ok d2) t2) listType userId).length
      = (listOf (addToList w userId movie listType (Except.ok d1) t1) listType userId).length ∧
    countKey (listOf (addToList (addToList w userId movie listType (Except.ok d1) t1)
        userId series listType (Except.ok d2) t2) listType userId) (toString series.id) = 1 ∧
    getKey (listOf (addToList (addToList w userId movie listType (Except.ok d1) t1)
        userId series listType (Except.ok d2) t2) listType userId) (toString series.id)
      = some (mediaDocOf series d2 t2) ∧
    (mediaDocOf series d2 t2).media_type = "tv" ∧
    (mediaDocOf movie d1 t1).media_type = "movie" := by
  have base := addToList_same_id_overwrites w userId listType movie series d1 d2 t1 t2 hid
  exact ⟨base.1, base.2.1, base.2.2.1, by simp [mediaDocOf, hs], by simp [mediaDocOf, hm]⟩

/-- C10 witness: a movie with id 7 overwritten by a series with id 7. -/
theorem addToList_key_ignores_media_kind_witness :
    countKey (listOf (addToList (addToList emptyWorld "u1"
        ⟨7, "movie", some "M", none, none, none, none⟩ "watched"
        (Except.ok ⟨some 90, none⟩) 1) "u1"
        ⟨7, "tv", none, some "S", none, none, none⟩ "watched"
        (Except.ok ⟨none, some [45]⟩) 2) "watched" "u1") (toString 7) = 1 ∧
    getKey (listOf (addToList (addToList emptyWorld "u1"
        ⟨7, "movie", some "M", none, none, none, none⟩ "watched"
        (Except.ok ⟨some 90, none⟩) 1) "u1"
        ⟨7, "tv", none, some "S", none, none, none⟩ "watched"
        (Except.ok ⟨none, some [45]⟩) 2) "watched" "u1") (toString 7)
      = some (mediaDocOf ⟨7, "tv", none, some "S", none, none, none⟩ ⟨none, some [45]⟩ 2) :=
  ⟨(addToList_key_ignores_media_kind emptyWorld "u1" "watched"
      ⟨7, "movie", some "M", none, none, none, none⟩
      ⟨7, "tv", none, some "S", none, none, none⟩
      ⟨some 90, none⟩ ⟨none, some [45]⟩ 1 2 rfl rfl rfl).2.1,
    (addToList_key_ignores_media_kind emptyWorld "u1" "watched"
      ⟨7, "movie", some "M", none, none, none, none⟩
      ⟨7, "tv", none, some "S", none, none, none⟩
      ⟨some 90, none⟩ ⟨none, some [45]⟩ 1 2 rfl rfl rfl).2.2.1⟩

/-- C8: declining a friend request deletes only that request document:
no friends collection of either party changes (no FriendEdge is ever
created), lists and profiles are untouched, other users' request
collections are untouched, and the accepter's other requests survive. -/
theorem declineRequest_deletes_only_request (w : World) (userId myName : String)
    (req : ReqRef) (ok : Bool) :
    (handleFriendRequest w userId myName req "decline" ok).friends = w.friends ∧
    (handleFriendRequest w userId myName req "decline" ok).watchedList = w.watchedList ∧
    (handleFriendRequest w userId myName req "decline" ok).wishlist = w.wishlist ∧
    (handleFriendRequest w userId myName req "decline" ok).publicUsers = w.publicUsers ∧
    (ok = true →
      (handleFriendRequest w userId myName req "decline" ok).friendRequests userId
        = delKey (w.friendRequests userId) req.id) ∧
    (∀ u, u ≠ userId →
      (handleFriendRequest w userId myName req "decline" ok).friendRequests u
        = w.friendRequests u) ∧
    (∀ k2, k2 ≠ req.id →
      getKey ((handleFriendRequest w userId myName req "decline" ok).friendRequests userId) k2
        = getKey (w.friendRequests userId) k2) := by
  have hact : ¬ ("decline" = "accept") := by decide
  cases ok with
  | false =>
    simp [handleFriendRequest, hact]
  | true =>
    refine ⟨by simp [handleFriendRequest, hact], by simp [handleFriendRequest, hact],
      by simp [handleFriendRequest, hact], by simp [handleFriendRequest, hact],
      ?_, ?_, ?_⟩
    · intro _
      simp [handleFriendRequest, hact, Function.update_same]
    · intro u hu
      simp only [handleFriendRequest, hact, if_neg, if_pos]
      exact Function.update_noteq hu _ _
    · intro k2 hk2
      have hdef : (handleFriendRequest w userId myName req "decline" true).friendRequests userId
          = delKey (w.friendRequests userId) req.id := by
        simp [handleFriendRequest, hact, Function.update_same]
      rw [hdef]
      exact getKey_delKey_ne _ _ _ hk2

/-- C8 witness: user A declines the pending request from S; A's and S's
friends collections stay empty and an unrelated key is unaffected. -/
theorem declineRequest_deletes_only_request_witness :
    (handleFriendRequest (sendFriendRequest emptyWorld "S" "Sam" "A" 10)
        "A" "Al" ⟨"S", "Sam"⟩ "decline" true).friends
      = (sendFriendRequest emptyWorld "S" "Sam" "A" 10).friends ∧
    (handleFriendRequest (sendFriendRequest emptyWorld "S" "Sam" "A" 10)
        "A" "Al" ⟨"S", "Sam"⟩ "decline" true).friendRequests "A"
      = delKey ((sendFriendRequest emptyWorld "S" "Sam" "A" 10).friendRequests "A") "S" ∧
    getKey ((handleFriendRequest (sendFriendRequest emptyWorld "S" "Sam" "A" 10)
        "A" "Al" ⟨"S", "Sam"⟩ "decline" true).friendRequests "A") "X"
      = getKey ((sendFriendRequest emptyWorld "S" "Sam" "A" 10).friendRequests "A") "X" :=
  ⟨(declineRequest_deletes_only_request (sendFriendRequest emptyWorld "S" "Sam" "A" 10)
      "A" "Al" ⟨"S", "Sam"⟩ true).1,
    (declineRequest_deletes_only_request (sendFriendRequest emptyWorld "S" "Sam" "A" 10)
      "A" "Al" ⟨"S", "Sam"⟩ true).2.2.2.2.1 rfl,
    (declineRequest_deletes_only_request (sendFriendRequest emptyWorld "S" "Sam" "A" 10)
      "A" "Al" ⟨"S", "Sam"⟩ true).2.2.2.2.2.2 "X" (by decide)⟩

/-- C1: accepting a pending friend request is atomic.  Whether the batch
commit succeeds or fails, the resulting store is either: both reciprocal
edges present, the request gone, and every other collection untouched —
or completely unchanged.  No third (partial) outcome exists. -/
theorem acceptRequest_atomic (w : World) (userId myName : String) (req : ReqRef)
    (commitOk : Bool)
    (hpend : hasKey (w.friendRequests userId) req.id = true) :
    (hasKey ((handleFriendRequest w userId myName req "accept" commitOk).friends userId)
        req.id = true ∧
     hasKey ((handleFriendRequest w userId myName req "accept" commitOk).friends req.id)
        userId = true ∧
     hasKey ((handleFriendRequest w userId myName req "accept" commitOk).friendRequests userId)
        req.id = false ∧
     (handleFriendRequest w userId myName req "accept" commitOk).watchedList = w.watchedList ∧
     (handleFriendRequest w userId myName req "accept" commitOk).wishlist = w.wishlist ∧
     (handleFriendRequest w userId myName req "accept" commitOk).publicUsers = w.publicUsers)
    ∨ handleFriendRequest w userId myName req "accept" commitOk = w := by
  cases commitOk with
  | false =>
    right
    simp [handleFriendRequest]
  | true =>
    left
    have hfr : handleFriendRequest w userId myName req "accept" true
        = acceptBatch w userId myName req := by
      simp [handleFriendRequest]
    rw [hfr]
    refine ⟨?_, ?_, ?_, rfl, rfl, rfl⟩
    · by_cases hu : req.id = userId
      · simp only [acceptBatch, hu, Function.update_same]
        exact hasKey_setKey_self _ _ _
      · simp only [acceptBatch]
        rw [Function.update_noteq (Ne.symm hu), Function.update_same]
        exact hasKey_setKey_self _ _ _
    · simp only [acceptBatch, Function.update_same]
      exact hasKey_setKey_self _ _ _
    · simp only [acceptBatch, Function.update_same]
      exact hasKey_delKey_self _ _

/-- C1 witness: user A accepts the pending request from S with a
successful commit; both edges exist and the request is gone. -/
theorem acceptRequest_atomic_witness :
    (hasKey ((handleFriendRequest (sendFriendRequest emptyWorld "S" "Sam" "A" 5)
        "A" "Al" ⟨"S", "Sam"⟩ "accept" true).friends "A") "S" = true ∧
     hasKey ((handleFriendRequest (sendFriendRequest emptyWorld "S" "Sam" "A" 5)
        "A" "Al" ⟨"S", "Sam"⟩ "accept" true).friends "S") "A" = true ∧
     hasKey ((handleFriendRequest (sendFriendRequest emptyWorld "S" "Sam" "A" 5)
        "A" "Al" ⟨"S", "Sam"⟩ "accept" true).friendRequests "A") "S" = false ∧
     (handleFriendRequest (sendFriendRequest emptyWorld "S" "Sam" "A" 5)
        "A" "Al" ⟨"S", "Sam"⟩ "accept" true).watchedList
       = (sendFriendRequest emptyWorld "S" "Sam" "A" 5).watchedList ∧
     (handleFriendRequest (sendFriendRequest emptyWorld "S" "Sam" "A" 5)
        "A" "Al" ⟨"S", "Sam"⟩ "accept" true).wishlist
       = (sendFriendRequest emptyWorld "S" "Sam" "A" 5).wishlist ∧
     (handleFriendRequest (sendFriendRequest emptyWorld "S" "Sam" "A" 5)
        "A" "Al" ⟨"S", "Sam"⟩ "accept" true).publicUsers
       = (sendFriendRequest emptyWorld "S" "Sam" "A" 5).publicUsers)
    ∨ handleFriendRequest (sendFriendRequest emptyWorld "S" "Sam" "A" 5)
        "A" "Al" ⟨"S", "Sam"⟩ "accept" true
      = sendFriendRequest emptyWorld "S" "Sam" "A" 5 :=
  acceptRequest_atomic (sendFriendRequest emptyWorld "S" "Sam" "A" 5)
    "A" "Al" ⟨"S", "Sam"⟩ true (by decide)

/-- C4: the published feed is the concatenated fetch result re-ordered by
`addedAt` descending: the sort output is a permutation of its input,
sorted under the comparator's key, and an entry whose `addedAt` is
missing (key 0) ends up strictly after every entry with a positive
timestamp. -/
theorem sortFeed_sorts_by_addedAt_desc (l : List FeedItem) :
    (sortFeed l).Perm l ∧
    List.Sorted feedGe (sortFeed l) ∧
    (∀ i j (hi : i < (sortFeed l).length) (hj : j < (sortFeed l).length),
      ((sortFeed l).get ⟨i, hi⟩).doc.addedAt = none →
      0 < feedKey ((sortFeed l).get ⟨j, hj⟩) → j < i) := by
  refine ⟨List.perm_insertionSort feedGe l, List.sorted_insertionSort feedGe l, ?_⟩
  intro i j hi hj hnone hpos
  have hnone2 : (sortFeed l)[i].doc.addedAt = none := by
    simpa [List.get_eq_getElem] using hnone
  have hkey : feedKey ((sortFeed l).get ⟨i, hi⟩) = 0 := by
    simp [feedKey, List.get_eq_getElem, hnone2]
  rcases Nat.lt_trichotomy i j with hij | hij | hij
  · exfalso
    have hrel := @List.Sorted.rel_get_of_lt _ _ _
      (List.sorted_insertionSort feedGe l) ⟨i, hi⟩ ⟨j, hj⟩ (Fin.mk_lt_mk.mpr hij)
    have hle : feedKey ((sortFeed l).get ⟨j, hj⟩)
        ≤ feedKey ((sortFeed l).get ⟨i, hi⟩) := hrel
    omega
  · exfalso
    have heq : (⟨j, hj⟩ : Fin (sortFeed l).length) = ⟨i, hi⟩ := Fin.ext hij.symm
    rw [heq] at hpos
    omega
  · exact hij

/-- C2 (code bug): line 170 awaits `getDoc(q)` on a Query, and the
modular SDK's `getDoc` throws on a Query, so for every nonempty friend
set — in particular the claimed F1/F2 configuration — the aggregation
rejects before a single friend document is fetched: `fetchFeeds` always
fails, no value is ever published (`setFriendsFeed` at line 176 is
unreachable), the feed state stays `[]`, and the claimed 8-item merged
feed never exists.  The intended call is `getDocs`. -/
theorem feed_fetch_always_rejects (w : World) (f : Friend) (rest : List Friend) :
    fetchFeeds (f :: rest) w = Except.error getDocQueryError ∧
    (∀ items : List FeedItem, fetchFeeds (f :: rest) w ≠ Except.ok items) ∧
    feedRefresh (f :: rest) w = ([], 1) := by
  refine ⟨rfl, ?_, ?_⟩
  · intro items hcontra
    simp [fetchFeeds, fetchFeedsLoop, friendTop5, Except.map] at hcontra
  · simp [feedRefresh, fetchFeeds, fetchFeedsLoop, friendTop5, Except.map]

/-- C6 (code bug): for every display name of length at least 3 and all
email/password inputs, the signup's uniqueness pre-check awaits
`getDoc(q)` on a Query, which throws and is caught at the operation
boundary: the result is the SDK error, no provider account is created and
no profile is written — so `register` never succeeds for any valid input
and no register-login round trip can yield an account id.  `getDoc` at
line 201 should be `getDocs`. -/
theorem register_never_succeeds (auth : AuthState) (w : World)
    (email password displayName : String) (hlen : 3 ≤ displayName.length) :
    (handleSignup auth w email password displayName).result
      = Except.error getDocQueryError ∧
    (handleSignup auth w email password displayName).auth = auth ∧
    (handleSignup auth w email password displayName).world = w ∧
    ∀ uid, ¬ ((handleSignup auth w email password displayName).result
        = Except.ok uid ∧
      handleLogin (handleSignup auth w email password displayName).auth email password
        = Except.ok uid) := by
  have h1 : ¬ displayName.length < 3 := Nat.not_lt.mpr hlen
  have hres : handleSignup auth w email password displayName
      = ⟨Except.error getDocQueryError, auth, w, 1⟩ := by
    simp [handleSignup, h1, namePrecheck]
  refine ⟨by rw [hres], by rw [hres], by rw [hres], ?_⟩
  intro uid hcontra
  rw [hres] at hcontra
  exact absurd hcontra.1 (by simp)

/-- C6 witness: the concrete valid input ("Alice", fresh email, empty
store) still fails with the `getDoc`-on-Query error and registers
nothing. -/
theorem register_never_succeeds_witness :
    (handleSignup ⟨[], 0⟩ emptyWorld "a@b.c" "hunter2" "Alice").result
      = Except.error getDocQueryError ∧
    (handleSignup ⟨[], 0⟩ emptyWorld "a@b.c" "hunter2" "Alice").auth = ⟨[], 0⟩ ∧
    (handleSignup ⟨[], 0⟩ emptyWorld "a@b.c" "hunter2" "Alice").world = emptyWorld :=
  ⟨(register_never_succeeds ⟨[], 0⟩ emptyWorld "a@b.c" "hunter2" "Alice" (by decide)).1,
    (register_never_succeeds ⟨[], 0⟩ emptyWorld "a@b.c" "hunter2" "Alice" (by decide)).2.1,
    (register_never_succeeds ⟨[], 0⟩ emptyWorld "a@b.c" "hunter2" "Alice" (by decide)).2.2.1⟩

end WatchTracker
